import Mathlib

/-!
Shallow embedding of the clang-tidy `performance-vector-pessimization` check
(`clang-tools-extra/clang-tidy/performance/VectorPessimizationCheck.cpp`).

The check receives the element type of a `std::vector` instantiation and
decides whether resizing such a vector will copy elements instead of moving
them (because the element's move constructor may throw); if so it emits one
warning plus a chain of explanatory notes built by a bounded recursive walk
over the element type's members and bases.

Modelling conventions:
* A clang `QualType`/`Type` is the inductive `QualType` below.  A record type
  carries its display name, the source location of its declaration, and
  `Option RecordDef` (`none` models `!Record->hasDefinition()`).  The
  constructor `other` models types that are neither builtin, enum, nor class
  records (e.g. pointer types), for which `getAsCXXRecordDecl()` is null.
* The `ExceptionSpecAnalyzer` oracle is pure and keyed on constructor
  identity, so its result is stored on each `CtorDecl` as `analyzedSpec`:
  `SpecAnalyzer.analyze(C)` is embedded as `C.analyzedSpec`.
* Source locations are `Nat` (line numbers in the test fixture).
* Diagnostics are reified: the notes emitted by `recursivelyCheckMembers`
  become a returned `List ChainStep`, the output of `check` a `List Diag`.
-/

namespace VectorPessimization

/-- `utils::ExceptionSpecAnalyzer::State` as used by the check. -/
inductive ExceptionState where
  | NotThrowing
  | Throwing
  | Unknown
deriving DecidableEq, Repr

/-- A constructor declaration of a record, with the oracle's classification
(`analyzedSpec` is the cached result of `SpecAnalyzer.analyze` on it). -/
structure CtorDecl where
  isMoveConstructor : Bool
  isUserProvided : Bool
  analyzedSpec : ExceptionState
  loc : Nat
deriving DecidableEq, Repr

mutual

/-- A clang `QualType`: builtin, enum, some other kind of type (pointer,
array, ... — `getAsCXXRecordDecl()` null), or a class/struct record, the
latter possibly without a visible definition. -/
inductive QualType where
  | builtin (name : String)
  | enumeral (name : String)
  | other (name : String)
  | record (name : String) (loc : Nat) (defn : Option RecordDef)

/-- The definition of a `CXXRecordDecl` that `hasDefinition()`: its
trivially-copyable flag, declared constructors, fields and bases, each in
declaration order. -/
inductive RecordDef where
  | mk (triviallyCopyable : Bool) (ctors : List CtorDecl)
       (fields : List FieldDecl) (bases : List BaseSpec)

/-- A `FieldDecl`: name, location, `isCXXClassMember()` flag, whether the
declared type carries local fast qualifiers (const/volatile), and its type. -/
inductive FieldDecl where
  | mk (name : String) (loc : Nat) (isCXXClassMember : Bool)
       (hasLocalFastQualifiers : Bool) (fieldType : QualType)

/-- A `CXXBaseSpecifier`: virtual flag, begin location, and the base type. -/
inductive BaseSpec where
  | mk (isVirtual : Bool) (beginLoc : Nat) (baseType : QualType)

end

def RecordDef.triviallyCopyable : RecordDef → Bool
  | .mk t _ _ _ => t

def RecordDef.ctors : RecordDef → List CtorDecl
  | .mk _ c _ _ => c

def RecordDef.fields : RecordDef → List FieldDecl
  | .mk _ _ f _ => f

def RecordDef.bases : RecordDef → List BaseSpec
  | .mk _ _ _ b => b

def FieldDecl.name : FieldDecl → String
  | .mk n _ _ _ _ => n

def FieldDecl.loc : FieldDecl → Nat
  | .mk _ l _ _ _ => l

def FieldDecl.isCXXClassMember : FieldDecl → Bool
  | .mk _ _ m _ _ => m

def FieldDecl.hasLocalFastQualifiers : FieldDecl → Bool
  | .mk _ _ _ q _ => q

def FieldDecl.fieldType : FieldDecl → QualType
  | .mk _ _ _ _ t => t

def BaseSpec.isVirtual : BaseSpec → Bool
  | .mk v _ _ => v

def BaseSpec.beginLoc : BaseSpec → Nat
  | .mk _ l _ => l

def BaseSpec.baseType : BaseSpec → QualType
  | .mk _ _ t => t

/-- `Type->isBuiltinType()`. -/
def QualType.isBuiltinType : QualType → Bool
  | .builtin _ => true
  | _ => false

/-- `Type->isEnumeralType()`. -/
def QualType.isEnumeralType : QualType → Bool
  | .enumeral _ => true
  | _ => false

/-- `Type->getAsCXXRecordDecl()`: the record's name, location and optional
definition, or `none` when the type is not a class record. -/
def QualType.asCXXRecordDecl : QualType → Option (String × Nat × Option RecordDef)
  | .record n l d => some (n, l, d)
  | _ => none

/-- `QualType::getAsString()`: the display name of the type. -/
def QualType.getAsString : QualType → String
  | .builtin n => n
  | .enumeral n => n
  | .other n => n
  | .record n _ _ => n

/-- `hasNothrowMoveConstructor` (VectorPessimizationCheck.cpp:26-37): false
when the type has no record decl or no definition; otherwise scan the
declared constructors and, at the first move constructor, return whether the
oracle classifies it as anything other than `Throwing`; false when no move
constructor is declared. -/
def hasNothrowMoveConstructor (ty : QualType) : Bool :=
  match ty.asCXXRecordDecl with
  | none => false
  | some (_, _, none) => false
  | some (_, _, some defn) =>
    match defn.ctors.find? (fun c => c.isMoveConstructor) with
    | some c => c.analyzedSpec != ExceptionState.Throwing
    | none => false

/-- `getThrowingUserDefinedMoveConstructor` (VectorPessimizationCheck.cpp:39-49):
at the first constructor that is both a move constructor and user-provided,
return it when classified `Throwing` and null otherwise; null when no such
constructor exists. -/
def getThrowingUserDefinedMoveConstructor (defn : RecordDef) : Option CtorDecl :=
  match defn.ctors.find? (fun c => c.isMoveConstructor && c.isUserProvided) with
  | some c => if c.analyzedSpec == ExceptionState.Throwing then some c else none
  | none => none

/-- `isTriviallyCopyable` (VectorPessimizationCheck.cpp:51-58): true for
builtin and enum types; false for non-records and records without a
definition; otherwise the record's trivially-copyable flag. -/
def isTriviallyCopyable (ty : QualType) : Bool :=
  if ty.isBuiltinType || ty.isEnumeralType then true
  else
    match ty.asCXXRecordDecl with
    | none => false
    | some (_, _, none) => false
    | some (_, _, some defn) => defn.triviallyCopyable

/-- `willDegradeToCopy` (VectorPessimizationCheck.cpp:60-64). -/
def willDegradeToCopy (ty : QualType) : Bool :=
  !isTriviallyCopyable ty && !hasNothrowMoveConstructor ty

/-- `getFirstThrowingDataMember` (VectorPessimizationCheck.cpp:66-75): the
first field that is a class member and whose type degrades.  (The source's
null check on the field pointer is always-true here.) -/
def getFirstThrowingDataMember (defn : RecordDef) : Option FieldDecl :=
  defn.fields.find? (fun f => f.isCXXClassMember && willDegradeToCopy f.fieldType)

/-- `getFirstThrowingBaseClass` (VectorPessimizationCheck.cpp:77-86): the
first non-virtual base whose type degrades. -/
def getFirstThrowingBaseClass (defn : RecordDef) : Option BaseSpec :=
  defn.bases.find? (fun b => !b.isVirtual && willDegradeToCopy b.baseType)

/-- A note emitted by `recursivelyCheckMembers`: the three note templates of
the check. -/
inductive ChainStep where
  | definedHere (loc : Nat) (typeName : String)
  | throwingMoveConstructorDeclaredHere (loc : Nat)
  | moveConstructorMayThrow (loc : Nat) (typeName : String)
deriving DecidableEq, Repr

/-- `MaxRecursionDepth` (VectorPessimizationCheck.cpp:24). -/
def MaxRecursionDepth : Nat := 3

/-- `VectorPessimizationCheck::recursivelyCheckMembers`
(VectorPessimizationCheck.cpp:90-126), with the emitted notes reified as the
returned list.  Returns nothing for a type without a defined record;
otherwise emits the "defined here" note, then exactly one of: the throwing
user-provided move constructor note (no recursion), the first throwing data
member note (recursing into the member type unless the depth has reached
`MaxRecursionDepth`; the note's type name has local fast qualifiers
stripped, which `QualType.getAsString` on the member type yields here), the
first throwing non-virtual base note (same recursion rule), or nothing. -/
def recursivelyCheckMembers (ty : QualType) (recursionDepth : Nat) : List ChainStep :=
  match ty.asCXXRecordDecl with
  | none => []
  | some (_, _, none) => []
  | some (name, loc, some defn) =>
    let located := ChainStep.definedHere loc name
    match getThrowingUserDefinedMoveConstructor defn with
    | some moveCtor =>
      [located, ChainStep.throwingMoveConstructorDeclaredHere moveCtor.loc]
    | none =>
      match getFirstThrowingDataMember defn with
      | some fld =>
        let note := ChainStep.moveConstructorMayThrow fld.loc fld.fieldType.getAsString
        if _h : MaxRecursionDepth ≤ recursionDepth then [located, note]
        else located :: note :: recursivelyCheckMembers fld.fieldType (recursionDepth + 1)
      | none =>
        match getFirstThrowingBaseClass defn with
        | some base =>
          let note := ChainStep.moveConstructorMayThrow base.beginLoc base.baseType.getAsString
          if _h : MaxRecursionDepth ≤ recursionDepth then [located, note]
          else located :: note :: recursivelyCheckMembers base.baseType (recursionDepth + 1)
        | none => [located]
termination_by MaxRecursionDepth - recursionDepth
decreasing_by
  all_goals omega

/-- A diagnostic of the check: the primary warning (with the vector type's
and element type's display names) or one of the chain notes. -/
inductive Diag where
  | warning (loc : Nat) (vectorTypeName : String) (valueTypeName : String)
  | note (s : ChainStep)
deriving DecidableEq, Repr

/-- `VectorPessimizationCheck::check` (VectorPessimizationCheck.cpp:142-157):
nothing when either bound node is missing or the element type does not
degrade; otherwise the warning followed by the causal chain started at
recursion depth 1. -/
def check (vectorTok : Option (Nat × String)) (valueType : Option QualType) : List Diag :=
  match vectorTok, valueType with
  | some (vloc, vname), some vt =>
    if willDegradeToCopy vt then
      Diag.warning vloc vname vt.getAsString :: (recursivelyCheckMembers vt 1).map Diag.note
    else []
  | _, _ => []

/-!
Fixture types, modelled from
`clang-tools-extra/test/clang-tidy/checkers/performance/vector-pessimization.cpp`
(locations are the line numbers there).  The copy constructors carry spec
`Throwing` (no `noexcept`), though the check never consults them.
-/

/-- Test fixture (lines 9-12): copy constructor, then a user-provided move
constructor with `noexcept(false)`, hence classified `Throwing`. -/
def MoveConstructorThrows : QualType :=
  .record "MoveConstructorThrows" 9 (some (.mk false
    [⟨false, true, .Throwing, 10⟩, ⟨true, true, .Throwing, 11⟩] [] []))

/-- Test fixture (lines 29-31): sole field `Bar` of type
`const MoveConstructorThrows` (local fast qualifier present). -/
def InnerFixture : QualType :=
  .record "ContainsThrowingMoveConstructor::Inner" 29
    (some (.mk false [] [⟨"Bar", 30, true, true, MoveConstructorThrows⟩] []))

/-- Test fixture (lines 27-34): an enum member, then a member of the nested
`Inner` type. -/
def ContainsThrowingMoveConstructor : QualType :=
  .record "ContainsThrowingMoveConstructor" 27
    (some (.mk false []
      [⟨"ThisMemberIsFine", 32, true, false, .enumeral "ExampleEnum"⟩,
       ⟨"Foo", 33, true, false, InnerFixture⟩] []))

/-- Test fixture (lines 45-47): sole field `Baz` of type
`ContainsThrowingMoveConstructor` — the head of the 4-level chain. -/
def ContainsDeeplyNestedThrowingMoveConstructor : QualType :=
  .record "ContainsDeeplyNestedThrowingMoveConstructor" 45
    (some (.mk false [] [⟨"Baz", 46, true, false, ContainsThrowingMoveConstructor⟩] []))

/-- Test fixture (lines 59-62): copy constructor, then a user-provided
`noexcept` move constructor, classified `NotThrowing`. -/
def NothrowMoveConstructibleExample : QualType :=
  .record "NothrowMoveConstructibleExample" 59
    (some (.mk false [⟨false, true, .Throwing, 60⟩, ⟨true, true, .NotThrowing, 61⟩] [] []))

/-- Test fixture (lines 66-68): a trivially copyable aggregate. -/
def TriviallyCopyableExample : QualType :=
  .record "TriviallyCopyableExample" 66
    (some (.mk true [] [⟨"I", 67, true, false, .builtin "int"⟩] []))

/-- A record declared but never defined (`hasDefinition()` false). -/
def IncompleteRecordExample : QualType :=
  .record "IncompleteRecord" 200 none

/-- A non-trivially-copyable record whose only declared constructor is a move
constructor the oracle classifies `Unknown`. -/
def UnknownSpecMoveExample : QualType :=
  .record "UnknownSpecMove" 210 (some (.mk false [⟨true, true, .Unknown, 211⟩] [] []))

/-- A record declaring two move constructors, e.g.
`S(S&&) noexcept = default; S(const S&&);` — the first is implicitly
specified and `NotThrowing`, the second user-provided and `Throwing`. -/
def DefaultedThenUserProvidedMoveExample : QualType :=
  .record "DefaultedThenUserProvidedMove" 220
    (some (.mk false [⟨true, false, .NotThrowing, 221⟩, ⟨true, true, .Throwing, 222⟩] [] []))

/-- A record whose only base is virtual and degrading, with no constructors
and no fields, e.g. `struct V : virtual MoveConstructorThrows {};`. -/
def OnlyVirtualDegradingBaseExample : QualType :=
  .record "OnlyVirtualDegradingBase" 230
    (some (.mk false [] [] [⟨true, 231, MoveConstructorThrows⟩]))

/-- Whether a chain step is the "defined here" locator note (as opposed to a
cause note). -/
def isLocatorStep : ChainStep → Bool
  | .definedHere _ _ => true
  | .throwingMoveConstructorDeclaredHere _ => false
  | .moveConstructorMayThrow _ _ => false

/-- Whether a chain step is the "because the move constructor of ... may
throw" member/base note. -/
def isMayThrowStep : ChainStep → Bool
  | .moveConstructorMayThrow _ _ => true
  | _ => false

/-- `alternatesFrom b steps` holds when the locator/cause shape of `steps`
alternates, starting with a locator note when `b` is true. -/
def alternatesFrom : Bool → List ChainStep → Bool
  | _, [] => true
  | b, s :: rest => (isLocatorStep s == b) && alternatesFrom (!b) rest

/-!
Helper lemmas.
-/

/-- If `c` is the first element of `l` satisfying `p`, and `c` also satisfies
the stronger predicate `q` (one implying `p`), then `c` is also the first
element satisfying `q`. -/
lemma find_first_restrict {α : Type} {p q : α → Bool} {l : List α} {c : α}
    (hfind : l.find? p = some c) (hqc : q c = true)
    (himp : ∀ x, q x = true → p x = true) : l.find? q = some c := by
  induction l with
  | nil => simp at hfind
  | cons x xs ih =>
    by_cases hpx : p x = true
    · rw [List.find?_cons_of_pos _ hpx] at hfind
      cases hfind
      rw [List.find?_cons_of_pos _ hqc]
    · rw [List.find?_cons_of_neg _ (by simpa using hpx)] at hfind
      have hqx : ¬ q x = true := fun h => hpx (himp x h)
      rw [List.find?_cons_of_neg _ (by simpa using hqx)]
      exact ih hfind

/-- One unfolding of the chain builder at a defined record whose first
user-provided move constructor check fails and whose first throwing data
member is found, below the depth limit. -/
lemma chain_cons_member {n : String} {l : Nat} {d : RecordDef} {fld : FieldDecl}
    {depth : Nat}
    (hctor : getThrowingUserDefinedMoveConstructor d = none)
    (hfld : getFirstThrowingDataMember d = some fld)
    (hdepth : ¬ MaxRecursionDepth ≤ depth) :
    recursivelyCheckMembers (.record n l (some d)) depth =
      ChainStep.definedHere l n ::
      ChainStep.moveConstructorMayThrow fld.loc fld.fieldType.getAsString ::
      recursivelyCheckMembers fld.fieldType (depth + 1) := by
  rw [recursivelyCheckMembers.eq_def]
  simp only [QualType.asCXXRecordDecl, hctor, hfld]
  rw [dif_neg hdepth]

/-- The fixture chain for `MoveConstructorThrows` at any depth: the locator
note followed by the throwing-constructor note, with no recursion. -/
lemma chain_MCT (depth : Nat) :
    recursivelyCheckMembers MoveConstructorThrows depth =
      [ChainStep.definedHere 9 "MoveConstructorThrows",
       ChainStep.throwingMoveConstructorDeclaredHere 11] := by
  rw [recursivelyCheckMembers.eq_def]
  rfl

/-- The fixture chain for `Inner` at the maximum depth: the member note for
`Bar` is emitted but recursion stops. -/
lemma chain_Inner_at_max :
    recursivelyCheckMembers InnerFixture 3 =
      [ChainStep.definedHere 29 "ContainsThrowingMoveConstructor::Inner",
       ChainStep.moveConstructorMayThrow 30 "MoveConstructorThrows"] := by
  rw [recursivelyCheckMembers.eq_def]
  rfl

/-- The full fixture chain of the depth-limit scenario, queried at depth 1. -/
lemma fixture_chain_eq :
    recursivelyCheckMembers ContainsDeeplyNestedThrowingMoveConstructor 1 =
      [ChainStep.definedHere 45 "ContainsDeeplyNestedThrowingMoveConstructor",
       ChainStep.moveConstructorMayThrow 46 "ContainsThrowingMoveConstructor",
       ChainStep.definedHere 27 "ContainsThrowingMoveConstructor",
       ChainStep.moveConstructorMayThrow 33 "ContainsThrowingMoveConstructor::Inner",
       ChainStep.definedHere 29 "ContainsThrowingMoveConstructor::Inner",
       ChainStep.moveConstructorMayThrow 30 "MoveConstructorThrows"] := by
  have h1 : recursivelyCheckMembers ContainsDeeplyNestedThrowingMoveConstructor 1 =
      ChainStep.definedHere 45 "ContainsDeeplyNestedThrowingMoveConstructor" ::
      ChainStep.moveConstructorMayThrow 46 "ContainsThrowingMoveConstructor" ::
      recursivelyCheckMembers ContainsThrowingMoveConstructor 2 := by
    rw [recursivelyCheckMembers.eq_def]
    rfl
  have h2 : recursivelyCheckMembers ContainsThrowingMoveConstructor 2 =
      ChainStep.definedHere 27 "ContainsThrowingMoveConstructor" ::
      ChainStep.moveConstructorMayThrow 33 "ContainsThrowingMoveConstructor::Inner" ::
      recursivelyCheckMembers InnerFixture 3 := by
    rw [recursivelyCheckMembers.eq_def]
    rfl
  rw [h1, h2, chain_Inner_at_max]

/-!
Claim theorems.
-/

/-- C1 counterexample: for a record with no visible definition the
degradation predicate returns true, not false as claimed — both
`isTriviallyCopyable` and `hasNothrowMoveConstructor` are false there, so
their negated conjunction holds. -/
theorem claim1_counterexample :
    willDegradeToCopy IncompleteRecordExample = true := by decide

/-- C1 (amended): for every type with no visible definition (an incomplete
type), the degradation predicate returns true (the type cannot be proved
safe), while the causal-chain builder emits no step for it — the analysis
silently stops with an empty chain. -/
theorem claim1_incomplete_type_behavior (n : String) (l : Nat) (depth : Nat) :
    willDegradeToCopy (QualType.record n l none) = true ∧
    recursivelyCheckMembers (QualType.record n l none) depth = [] := by
  refine ⟨rfl, ?_⟩
  rw [recursivelyCheckMembers.eq_def]
  rfl

/-- C2 counterexample: a non-trivially-copyable record whose only (hence
first) declared move constructor is classified `Unknown` does NOT degrade:
`willDegradeToCopy` returns false, because `hasNothrowMoveConstructor`
compares the classification only against `Throwing`. -/
theorem claim2_counterexample :
    isTriviallyCopyable UnknownSpecMoveExample = false ∧
    (RecordDef.mk false [⟨true, true, .Unknown, 211⟩] [] []).ctors.find?
      (fun c => c.isMoveConstructor) = some ⟨true, true, .Unknown, 211⟩ ∧
    willDegradeToCopy UnknownSpecMoveExample = false := by decide

/-- C2 (amended): for every type with a visible definition whose first
declared move constructor is classified `Unknown` by the
exception-specification oracle, `willDegradeToCopy` returns false — the code
treats `Unknown` like `NotThrowing` (anything other than `Throwing` counts
as a nothrow move constructor), so `Unknown` does NOT count toward
degradation. -/
theorem claim2_unknown_treated_as_safe (n : String) (l : Nat) (d : RecordDef)
    (c : CtorDecl)
    (hfind : d.ctors.find? (fun c => c.isMoveConstructor) = some c)
    (hspec : c.analyzedSpec = ExceptionState.Unknown) :
    willDegradeToCopy (QualType.record n l (some d)) = false := by
  have hnothrow : hasNothrowMoveConstructor (QualType.record n l (some d)) = true := by
    simp only [hasNothrowMoveConstructor, QualType.asCXXRecordDecl, hfind, hspec]
    rfl
  simp [willDegradeToCopy, hnothrow]

/-- C2 witness: the amended theorem applied to the concrete
`UnknownSpecMoveExample` record. -/
theorem claim2_witness :
    willDegradeToCopy UnknownSpecMoveExample = false :=
  claim2_unknown_treated_as_safe "UnknownSpecMove" 210
    (RecordDef.mk false [⟨true, true, .Unknown, 211⟩] [] [])
    ⟨true, true, .Unknown, 211⟩ (by decide) (by decide)

/-- C6: builtin types, enum types, and trivially-copyable class types (with a
visible definition, whatever their constructors' classifications) never
satisfy the degradation predicate. -/
theorem claim6_trivial_types_never_degrade (bn en n : String) (l : Nat)
    (d : RecordDef) (h : d.triviallyCopyable = true) :
    willDegradeToCopy (QualType.builtin bn) = false ∧
    willDegradeToCopy (QualType.enumeral en) = false ∧
    willDegradeToCopy (QualType.record n l (some d)) = false := by
  refine ⟨rfl, rfl, ?_⟩
  have htriv : isTriviallyCopyable (QualType.record n l (some d)) = true := by
    simp only [isTriviallyCopyable, QualType.isBuiltinType, QualType.isEnumeralType,
      QualType.asCXXRecordDecl, h]
    rfl
  simp [willDegradeToCopy, htriv]

/-- C6 witness: the theorem applied to `int`, `ExampleEnum` and the
`TriviallyCopyableExample` fixture (whose record definition carries the
trivially-copyable flag). -/
theorem claim6_witness :
    willDegradeToCopy (QualType.builtin "int") = false ∧
    willDegradeToCopy (QualType.enumeral "ExampleEnum") = false ∧
    willDegradeToCopy TriviallyCopyableExample = false :=
  claim6_trivial_types_never_degrade "int" "ExampleEnum" "TriviallyCopyableExample" 66
    (RecordDef.mk true [] [⟨"I", 67, true, false, .builtin "int"⟩] []) (by decide)

/-- C10: for a type that is neither builtin, enum, nor a record with a
visible definition (e.g. a pointer type, or a record declared but not
defined), both `isTriviallyCopyable` and `hasNothrowMoveConstructor` are
false, so `willDegradeToCopy` is true (the warning fires), while
`recursivelyCheckMembers` emits no note at all. -/
theorem claim10_no_record_degrades_with_empty_chain (name n : String)
    (l depth depth2 : Nat) :
    (isTriviallyCopyable (QualType.other name) = false ∧
     hasNothrowMoveConstructor (QualType.other name) = false ∧
     willDegradeToCopy (QualType.other name) = true ∧
     recursivelyCheckMembers (QualType.other name) depth = []) ∧
    (isTriviallyCopyable (QualType.record n l none) = false ∧
     hasNothrowMoveConstructor (QualType.record n l none) = false ∧
     willDegradeToCopy (QualType.record n l none) = true ∧
     recursivelyCheckMembers (QualType.record n l none) depth2 = []) := by
  refine ⟨⟨rfl, rfl, rfl, ?_⟩, rfl, rfl, rfl, ?_⟩ <;>
    · rw [recursivelyCheckMembers.eq_def]
      rfl

/-- Every emitted chain alternates: locator steps at even positions, cause
steps at odd positions (each level contributes its "defined here" note and
then at most one cause note before recursing). -/
lemma chain_alternates (ty : QualType) (depth : Nat) :
    alternatesFrom true (recursivelyCheckMembers ty depth) = true := by
  cases ty with
  | builtin name =>
    rw [recursivelyCheckMembers.eq_def]
    rfl
  | enumeral name =>
    rw [recursivelyCheckMembers.eq_def]
    rfl
  | other name =>
    rw [recursivelyCheckMembers.eq_def]
    rfl
  | record n l defn =>
    cases defn with
    | none =>
      rw [recursivelyCheckMembers.eq_def]
      rfl
    | some d =>
      rcases hc : getThrowingUserDefinedMoveConstructor d with _ | c
      · rcases hf : getFirstThrowingDataMember d with _ | f
        · rcases hb : getFirstThrowingBaseClass d with _ | b
          · rw [recursivelyCheckMembers.eq_def]
            simp only [QualType.asCXXRecordDecl, hc, hf, hb]
            rfl
          · by_cases hd : MaxRecursionDepth ≤ depth
            · rw [recursivelyCheckMembers.eq_def]
              simp only [QualType.asCXXRecordDecl, hc, hf, hb]
              rw [dif_pos hd]
              rfl
            · rw [recursivelyCheckMembers.eq_def]
              simp only [QualType.asCXXRecordDecl, hc, hf, hb]
              rw [dif_neg hd]
              simp only [alternatesFrom, isLocatorStep]
              simpa using chain_alternates b.baseType (depth + 1)
        · by_cases hd : MaxRecursionDepth ≤ depth
          · rw [recursivelyCheckMembers.eq_def]
            simp only [QualType.asCXXRecordDecl, hc, hf]
            rw [dif_pos hd]
            rfl
          · rw [recursivelyCheckMembers.eq_def]
            simp only [QualType.asCXXRecordDecl, hc, hf]
            rw [dif_neg hd]
            simp only [alternatesFrom, isLocatorStep]
            simpa using chain_alternates f.fieldType (depth + 1)
      · rw [recursivelyCheckMembers.eq_def]
        simp only [QualType.asCXXRecordDecl, hc]
        rfl
termination_by MaxRecursionDepth - depth
decreasing_by
  all_goals omega

/-- Every invocation of the chain builder on a defined record opens with the
"defined here" locator note for that record. -/
lemma chain_head (n : String) (l depth : Nat) (d : RecordDef) :
    ∃ rest, recursivelyCheckMembers (QualType.record n l (some d)) depth =
      ChainStep.definedHere l n :: rest := by
  rcases hc : getThrowingUserDefinedMoveConstructor d with _ | c
  · rcases hf : getFirstThrowingDataMember d with _ | f
    · rcases hb : getFirstThrowingBaseClass d with _ | b
      · refine ⟨[], ?_⟩
        rw [recursivelyCheckMembers.eq_def]
        simp only [QualType.asCXXRecordDecl, hc, hf, hb]
      · rw [recursivelyCheckMembers.eq_def]
        simp only [QualType.asCXXRecordDecl, hc, hf, hb]
        by_cases hd : MaxRecursionDepth ≤ depth
        · rw [dif_pos hd]
          exact ⟨_, rfl⟩
        · rw [dif_neg hd]
          exact ⟨_, rfl⟩
    · rw [recursivelyCheckMembers.eq_def]
      simp only [QualType.asCXXRecordDecl, hc, hf]
      by_cases hd : MaxRecursionDepth ≤ depth
      · rw [dif_pos hd]
        exact ⟨_, rfl⟩
      · rw [dif_neg hd]
        exact ⟨_, rfl⟩
  · rw [recursivelyCheckMembers.eq_def]
    simp only [QualType.asCXXRecordDecl, hc]
    exact ⟨_, rfl⟩

/-- The emitted chain never exceeds two steps per remaining recursion level:
its length is at most `2 * (MaxRecursionDepth + 1 - min depth
MaxRecursionDepth)` — in particular at most 8 overall and at most 6 for the
entry-point call at depth 1. -/
lemma chain_length_bounded (ty : QualType) (depth : Nat) :
    (recursivelyCheckMembers ty depth).length ≤
      2 * (MaxRecursionDepth + 1 - min depth MaxRecursionDepth) := by
  cases ty with
  | builtin name =>
    rw [recursivelyCheckMembers.eq_def]
    simp only [QualType.asCXXRecordDecl, List.length_nil]
    omega
  | enumeral name =>
    rw [recursivelyCheckMembers.eq_def]
    simp only [QualType.asCXXRecordDecl, List.length_nil]
    omega
  | other name =>
    rw [recursivelyCheckMembers.eq_def]
    simp only [QualType.asCXXRecordDecl, List.length_nil]
    omega
  | record n l defn =>
    cases defn with
    | none =>
      rw [recursivelyCheckMembers.eq_def]
      simp only [QualType.asCXXRecordDecl, List.length_nil]
      omega
    | some d =>
      rcases hc : getThrowingUserDefinedMoveConstructor d with _ | c
      · rcases hf : getFirstThrowingDataMember d with _ | f
        · rcases hb : getFirstThrowingBaseClass d with _ | b
          · rw [recursivelyCheckMembers.eq_def]
            simp only [QualType.asCXXRecordDecl, hc, hf, hb, List.length_cons,
              List.length_nil]
            omega
          · by_cases hd : MaxRecursionDepth ≤ depth
            · rw [recursivelyCheckMembers.eq_def]
              simp only [QualType.asCXXRecordDecl, hc, hf, hb]
              rw [dif_pos hd]
              simp only [List.length_cons, List.length_nil]
              omega
            · rw [recursivelyCheckMembers.eq_def]
              simp only [QualType.asCXXRecordDecl, hc, hf, hb]
              rw [dif_neg hd]
              simp only [List.length_cons]
              have ih := chain_length_bounded b.baseType (depth + 1)
              omega
        · by_cases hd : MaxRecursionDepth ≤ depth
          · rw [recursivelyCheckMembers.eq_def]
            simp only [QualType.asCXXRecordDecl, hc, hf]
            rw [dif_pos hd]
            simp only [List.length_cons, List.length_nil]
            omega
          · rw [recursivelyCheckMembers.eq_def]
            simp only [QualType.asCXXRecordDecl, hc, hf]
            rw [dif_neg hd]
            simp only [List.length_cons]
            have ih := chain_length_bounded f.fieldType (depth + 1)
            omega
      · rw [recursivelyCheckMembers.eq_def]
        simp only [QualType.asCXXRecordDecl, hc, List.length_cons, List.length_nil]
        omega
termination_by MaxRecursionDepth - depth
decreasing_by
  all_goals omega

/-- C3 counterexample: in the depth-limit fixture the chain does NOT stop
after a "defined here" step for the leaf type `MoveConstructorThrows` — no
such step is ever emitted; the last emitted step is the third member
may-throw note. -/
theorem claim3_counterexample :
    (recursivelyCheckMembers ContainsDeeplyNestedThrowingMoveConstructor 1).getLast? =
      some (ChainStep.moveConstructorMayThrow 30 "MoveConstructorThrows") ∧
    ChainStep.definedHere 9 "MoveConstructorThrows" ∉
      recursivelyCheckMembers ContainsDeeplyNestedThrowingMoveConstructor 1 := by
  rw [fixture_chain_eq]
  decide

/-- C3 (amended): the depth-limit scenario (the 4-level fixture chain queried
at depth 1 with maximum depth 3) emits exactly 3 "because the move
constructor of ... may throw" member steps; the output stops right after the
third such step (which cites the leaf type `MoveConstructorThrows`),
omitting both the leaf type's "defined here" step and the final
throwing-constructor note; truncation is silent — no truncation marker
exists among the emitted steps. -/
theorem claim3_depth_limit_truncation :
    recursivelyCheckMembers ContainsDeeplyNestedThrowingMoveConstructor 1 =
      [ChainStep.definedHere 45 "ContainsDeeplyNestedThrowingMoveConstructor",
       ChainStep.moveConstructorMayThrow 46 "ContainsThrowingMoveConstructor",
       ChainStep.definedHere 27 "ContainsThrowingMoveConstructor",
       ChainStep.moveConstructorMayThrow 33 "ContainsThrowingMoveConstructor::Inner",
       ChainStep.definedHere 29 "ContainsThrowingMoveConstructor::Inner",
       ChainStep.moveConstructorMayThrow 30 "MoveConstructorThrows"] ∧
    (recursivelyCheckMembers ContainsDeeplyNestedThrowingMoveConstructor 1).countP
      isMayThrowStep = 3 := by
  refine ⟨fixture_chain_eq, ?_⟩
  rw [fixture_chain_eq]
  decide

/-- C4 counterexample: for `OnlyVirtualDegradingBase` (whose only degrading
constituent is its virtual base `MoveConstructorThrows`), diagnostics ARE
produced: the element type itself satisfies the predicate, so the warning
and the "defined here" note are emitted — only the cause note is absent. -/
theorem claim4_counterexample :
    willDegradeToCopy MoveConstructorThrows = true ∧
    check (some (300, "vector<OnlyVirtualDegradingBase>"))
        (some OnlyVirtualDegradingBaseExample) =
      [Diag.warning 300 "vector<OnlyVirtualDegradingBase>" "OnlyVirtualDegradingBase",
       Diag.note (ChainStep.definedHere 230 "OnlyVirtualDegradingBase")] := by
  refine ⟨by decide, ?_⟩
  have hchain : recursivelyCheckMembers OnlyVirtualDegradingBaseExample 1 =
      [ChainStep.definedHere 230 "OnlyVirtualDegradingBase"] := by
    rw [recursivelyCheckMembers.eq_def]
    rfl
  simp only [check]
  rw [if_pos (show willDegradeToCopy OnlyVirtualDegradingBaseExample = true by decide)]
  rw [hchain]
  rfl

/-- C4 (amended): virtual base classes are always skipped by the base-class
scan, even when a virtual base would otherwise be the first degrading base:
for a defined record with no user-provided throwing move constructor, no
degrading data member, and only virtual bases (degrading or not), the base
scan finds nothing and the chain builder emits no cause note — the chain
ends at the type's "defined here" step (the chain-terminator case). -/
theorem claim4_virtual_bases_skipped (n : String) (l depth : Nat) (d : RecordDef)
    (hvirt : ∀ b ∈ d.bases, b.isVirtual = true)
    (hctor : getThrowingUserDefinedMoveConstructor d = none)
    (hfld : getFirstThrowingDataMember d = none) :
    getFirstThrowingBaseClass d = none ∧
    recursivelyCheckMembers (QualType.record n l (some d)) depth =
      [ChainStep.definedHere l n] := by
  have hbase : getFirstThrowingBaseClass d = none := by
    rw [getFirstThrowingBaseClass, List.find?_eq_none]
    intro b hb
    simp [hvirt b hb]
  refine ⟨hbase, ?_⟩
  rw [recursivelyCheckMembers.eq_def]
  simp only [QualType.asCXXRecordDecl, hctor, hfld, hbase]

/-- C4 witness: the amended theorem applied to the
`OnlyVirtualDegradingBase` record. -/
theorem claim4_witness :
    recursivelyCheckMembers OnlyVirtualDegradingBaseExample 1 =
      [ChainStep.definedHere 230 "OnlyVirtualDegradingBase"] :=
  (claim4_virtual_bases_skipped "OnlyVirtualDegradingBase" 230 1
    (RecordDef.mk false [] [] [⟨true, 231, MoveConstructorThrows⟩])
    (by intro b hb; simp [RecordDef.bases] at hb; simp [hb, BaseSpec.isVirtual])
    (by rfl) (by rfl)).2

/-- C5 counterexample: a record declaring a defaulted `NotThrowing` move
constructor before a user-provided `Throwing` one has a user-provided move
constructor classified Throwing and is not trivially copyable, yet
`willDegradeToCopy` is false — only the first declared move constructor is
consulted. -/
theorem claim5_counterexample :
    ((RecordDef.mk false [⟨true, false, .NotThrowing, 221⟩, ⟨true, true, .Throwing, 222⟩]
        [] []).ctors.any
      (fun c => c.isMoveConstructor && c.isUserProvided &&
        (c.analyzedSpec == ExceptionState.Throwing)) = true) ∧
    isTriviallyCopyable DefaultedThenUserProvidedMoveExample = false ∧
    willDegradeToCopy DefaultedThenUserProvidedMoveExample = false := by decide

/-- C5 (amended): for every non-trivially-copyable defined record whose FIRST
declared move constructor is user-provided and classified `Throwing`,
`willDegradeToCopy` returns true and the causal chain is exactly the
"defined here" locator followed by the "throwing move constructor declared
here" step at that constructor's location — recursion does not descend
further. -/
theorem claim5_throwing_user_move_ctor (n : String) (l depth : Nat)
    (d : RecordDef) (c : CtorDecl)
    (htriv : d.triviallyCopyable = false)
    (hfind : d.ctors.find? (fun c => c.isMoveConstructor) = some c)
    (huser : c.isUserProvided = true)
    (hthrow : c.analyzedSpec = ExceptionState.Throwing) :
    willDegradeToCopy (QualType.record n l (some d)) = true ∧
    recursivelyCheckMembers (QualType.record n l (some d)) depth =
      [ChainStep.definedHere l n,
       ChainStep.throwingMoveConstructorDeclaredHere c.loc] := by
  have hmove : c.isMoveConstructor = true := List.find?_some hfind
  have hfind2 : d.ctors.find? (fun x => x.isMoveConstructor && x.isUserProvided) = some c :=
    find_first_restrict hfind (by simp [hmove, huser])
      (fun x hx => by
        simp only [Bool.and_eq_true] at hx
        exact hx.1)
  have hctor : getThrowingUserDefinedMoveConstructor d = some c := by
    simp [getThrowingUserDefinedMoveConstructor, hfind2, hthrow]
  constructor
  · have hnothrow : hasNothrowMoveConstructor (QualType.record n l (some d)) = false := by
      simp only [hasNothrowMoveConstructor, QualType.asCXXRecordDecl, hfind, hthrow]
      rfl
    have htriv2 : isTriviallyCopyable (QualType.record n l (some d)) = false := by
      simp only [isTriviallyCopyable, QualType.isBuiltinType, QualType.isEnumeralType,
        QualType.asCXXRecordDecl, htriv]
      rfl
    simp [willDegradeToCopy, hnothrow, htriv2]
  · rw [recursivelyCheckMembers.eq_def]
    simp only [QualType.asCXXRecordDecl, hctor]

/-- C5 witness: the amended theorem applied to the `MoveConstructorThrows`
fixture, whose first (and only) move constructor is user-provided and
classified `Throwing`. -/
theorem claim5_witness :
    willDegradeToCopy MoveConstructorThrows = true ∧
    recursivelyCheckMembers MoveConstructorThrows 1 =
      [ChainStep.definedHere 9 "MoveConstructorThrows",
       ChainStep.throwingMoveConstructorDeclaredHere 11] :=
  claim5_throwing_user_move_ctor "MoveConstructorThrows" 9 1
    (RecordDef.mk false [⟨false, true, .Throwing, 10⟩, ⟨true, true, .Throwing, 11⟩] [] [])
    ⟨true, true, .Throwing, 11⟩ (by decide) (by decide) (by decide) (by decide)

/-- C7: the entry point reports if and only if the element type satisfies the
degradation predicate — when the predicate is false the output is empty, and
when it is true the output is exactly one warning citing the container and
element display names followed by the causal chain built at depth 1. -/
theorem claim7_report_iff_degrades (vloc : Nat) (vname : String) (vt : QualType) :
    (check (some (vloc, vname)) (some vt) ≠ [] ↔ willDegradeToCopy vt = true) ∧
    (willDegradeToCopy vt = false → check (some (vloc, vname)) (some vt) = []) ∧
    (willDegradeToCopy vt = true →
      check (some (vloc, vname)) (some vt) =
        Diag.warning vloc vname vt.getAsString ::
          (recursivelyCheckMembers vt 1).map Diag.note) := by
  by_cases h : willDegradeToCopy vt = true
  · refine ⟨by simp [check, h], by simp [h], fun _ => by simp [check, h]⟩
  · have h2 : willDegradeToCopy vt = false := by simpa using h
    refine ⟨by simp [check, h2], fun _ => by simp [check, h2], by simp [h2]⟩

/-- C7 witness: zero diagnostics for the `NothrowMoveConstructibleExample`
fixture (its user-provided move constructor is `NotThrowing`, so the
predicate is false), and the full warning-plus-chain output for the
degrading `MoveConstructorThrows` fixture. -/
theorem claim7_witness :
    check (some (64, "vector<NothrowMoveConstructibleExample>"))
      (some NothrowMoveConstructibleExample) = [] ∧
    check (some (14, "vector<MoveConstructorThrows>")) (some MoveConstructorThrows) =
      Diag.warning 14 "vector<MoveConstructorThrows>" "MoveConstructorThrows" ::
        (recursivelyCheckMembers MoveConstructorThrows 1).map Diag.note :=
  ⟨(claim7_report_iff_degrades 64 "vector<NothrowMoveConstructibleExample>"
      NothrowMoveConstructibleExample).2.1 (by decide),
   (claim7_report_iff_degrades 14 "vector<MoveConstructorThrows>"
      MoveConstructorThrows).2.2 (by decide)⟩

/-- C8: on a type with a visible definition the chain builder first emits the
"defined here" locator for the current type; the three cause checks are then
evaluated in strict priority order with first match winning — a throwing
user-provided move constructor yields exactly the two-step chain with no
recursion, and otherwise the first degrading data member's note follows the
locator (bases are not consulted); consequently every emitted chain
alternates locator and cause steps. -/
theorem claim8_chain_shape (ty : QualType) (n : String) (l depth depth2 : Nat)
    (d : RecordDef) :
    (∃ rest, recursivelyCheckMembers (QualType.record n l (some d)) depth =
      ChainStep.definedHere l n :: rest) ∧
    alternatesFrom true (recursivelyCheckMembers ty depth2) = true ∧
    (∀ c, getThrowingUserDefinedMoveConstructor d = some c →
      recursivelyCheckMembers (QualType.record n l (some d)) depth =
        [ChainStep.definedHere l n,
         ChainStep.throwingMoveConstructorDeclaredHere c.loc]) ∧
    (∀ f, getThrowingUserDefinedMoveConstructor d = none →
      getFirstThrowingDataMember d = some f →
      (recursivelyCheckMembers (QualType.record n l (some d)) depth).take 2 =
        [ChainStep.definedHere l n,
         ChainStep.moveConstructorMayThrow f.loc f.fieldType.getAsString]) := by
  refine ⟨chain_head n l depth d, chain_alternates ty depth2, ?_, ?_⟩
  · intro c hc
    rw [recursivelyCheckMembers.eq_def]
    simp only [QualType.asCXXRecordDecl, hc]
  · intro f hc hf
    rw [recursivelyCheckMembers.eq_def]
    simp only [QualType.asCXXRecordDecl, hc, hf]
    by_cases hd : MaxRecursionDepth ≤ depth
    · rw [dif_pos hd]
      rfl
    · rw [dif_neg hd]
      rfl

/-- C8 witness: the shape theorem applied to the `MoveConstructorThrows`
record (throwing-constructor priority case) and, for the alternation
conjunct, to the deep fixture chain. -/
theorem claim8_witness :
    recursivelyCheckMembers MoveConstructorThrows 1 =
      [ChainStep.definedHere 9 "MoveConstructorThrows",
       ChainStep.throwingMoveConstructorDeclaredHere 11] ∧
    alternatesFrom true
      (recursivelyCheckMembers ContainsDeeplyNestedThrowingMoveConstructor 1) = true :=
  ⟨(claim8_chain_shape MoveConstructorThrows "MoveConstructorThrows" 9 1 1
      (RecordDef.mk false [⟨false, true, .Throwing, 10⟩, ⟨true, true, .Throwing, 11⟩]
        [] [])).2.2.1 ⟨true, true, .Throwing, 11⟩ (by rfl),
   (claim8_chain_shape ContainsDeeplyNestedThrowingMoveConstructor "X" 0 0 1
      (RecordDef.mk false [] [] [])).2.1⟩

/-- C9: the analysis always terminates with a bounded chain — the walk is cut
off by the depth counter against `MaxRecursionDepth`, so the chain holds at
most two steps (one locator, one cause) per remaining level; at or beyond
the maximum depth at most one level is emitted.  Absence of a record
definition yields the empty chain rather than any failure. -/
theorem claim9_walk_bounded (ty ty2 : QualType) (depth depth2 : Nat) :
    (recursivelyCheckMembers ty depth).length ≤
      2 * (MaxRecursionDepth + 1 - min depth MaxRecursionDepth) ∧
    (MaxRecursionDepth ≤ depth2 → (recursivelyCheckMembers ty2 depth2).length ≤ 2) := by
  refine ⟨chain_length_bounded ty depth, fun h => ?_⟩
  have hb := chain_length_bounded ty2 depth2
  have hmin : min depth2 MaxRecursionDepth = MaxRecursionDepth := by omega
  rw [hmin] at hb
  omega

/-- C9 witness: the bound theorem applied at the maximum depth to the
`InnerFixture` record, whose truncated chain has exactly two steps. -/
theorem claim9_witness :
    (recursivelyCheckMembers InnerFixture 3).length ≤ 2 :=
  (claim9_walk_bounded InnerFixture InnerFixture 3 3).2 (by decide)

end VectorPessimization
